import Mathlib

/-!
# Session authentication gate of get-back-jojo

A shallow embedding of `src/lib/middleware/authenticate.js`, the Express
middleware that reads the session cookie, verifies the JWT it holds and
either binds the decoded user to the request or hands a 401 error to the
continuation.

The middleware is an `async (req, res, next)` function.  Its effects are
made explicit: a run yields the request as it stands afterwards, the list of
calls made to `jwt.verify`, the list of calls made to `next` (each with the
request as it stood at the call) and the way the returned promise settles.
`res` is never touched by the source and is left out.

`jwt.verify` belongs to the `jsonwebtoken` package, not to this repository:
what it does with a string token is a parameter of the embedding, as is the
continuation `next`.  `req.cookies`, when present, is a plain object, so a
property read that finds no own property falls through to `Object.prototype`.
-/

namespace GetBackJojo

/-! ## Data model -/

/-- Identity claim carried by a token: the payload `jwt.verify` returns. -/
structure Claim where
  userId : String
  role : String
  issuedAt : Nat
deriving DecidableEq, Repr

/-- An error object (`Error`, `TypeError`, `JsonWebTokenError`, ...), with
the `status` property the gate writes (`none` while the property is unset). -/
structure JsError where
  name : String
  message : String
  status : Option Nat
deriving DecidableEq, Repr

/-- A value a JavaScript `throw` can carry, split by what `e.status = 401`
does to it in a non-strict CommonJS module: an object takes the property, a
primitive ignores the assignment, `null`/`undefined` make it a `TypeError`. -/
inductive Thrown where
  | object (e : JsError)
  | primitive (text : String)
  | nullish
deriving DecidableEq, Repr

/-- The two variables of `process.env` the gate reads; an unset variable is
`undefined` in JavaScript, `none` here. -/
structure Env where
  COOKIE_NAME : Option String
  JWT_SECRET : Option String
deriving DecidableEq, Repr

/-- The request as the gate sees it: `req.cookies` (`none` when no cookie
parser ran and the property is `undefined`, else the own properties of a
plain object, each a cookie string), `req.user`, and the rest of the request,
which the gate never reads. -/
structure Request where
  cookies : Option (List (String × String))
  user : Option Claim
  headers : List (String × String)
  body : String
deriving DecidableEq, Repr

/-- What the property read `req.cookies[name]` can yield on a plain object
whose own properties are cookie strings: `undefined`, a string, or the value
`Object.prototype` holds under `name` (a function, or the prototype object
itself for `__proto__`), which is truthy and is not a string. -/
inductive JsValue where
  | undefined
  | str (s : String)
  | inherited (name : String)
deriving DecidableEq, Repr

/-- `jwt.verify(token, secret)` called synchronously on a string token: the
decoded payload, or the error object it throws. -/
abbrev Verifier := String → Option String → Except JsError Claim

/-- The continuation `next`: given the request as it stands and the argument
it is called with (`none` for `next()`), it returns normally (`none`) or
throws a value. -/
abbrev Next := Request → Option Thrown → Option Thrown

/-- One call of the continuation. -/
structure Call where
  req : Request
  arg : Option Thrown
deriving DecidableEq, Repr

/-- How the promise returned by the `async` function settles. -/
inductive Completion where
  | resolved
  | rejected (reason : Thrown)
deriving DecidableEq, Repr

/-- State at the end of the `try` block: what has happened so far and the
value that left the block by `throw`, if any. -/
structure TryState where
  req : Request
  verifyCalls : List (JsValue × Option String)
  calls : List Call
  thrown : Option Thrown
deriving DecidableEq, Repr

/-- Everything observable of one run of the gate. -/
structure Run where
  req : Request
  verifyCalls : List (JsValue × Option String)
  calls : List Call
  completion : Completion
deriving DecidableEq, Repr

/-! ## The gate -/

/-- Property key used in `req.cookies[process.env.COOKIE_NAME]`: an unset
variable is `undefined`, which as a property key is the text "undefined". -/
def cookieKey (env : Env) : String :=
  match env.COOKIE_NAME with
  | some name => name
  | none => "undefined"

/-- Message of the `TypeError` raised by indexing `undefined`. -/
def readOfUndefinedMessage (key : String) : String :=
  "Cannot read properties of undefined (reading \x27" ++ key ++ "\x27)"

/-- Message of the `TypeError` raised by assigning a property of
`null`/`undefined`. -/
def setOfUndefinedMessage : String :=
  "Cannot set properties of undefined (setting \x27status\x27)"

/-- The error thrown at line 7 of the source. -/
def notSignedIn : JsError :=
  ⟨"Error", "You must be signed in to continue", none⟩

/-- The string-keyed properties of `Object.prototype`, which every plain
object inherits. -/
def objectPrototypeKeys : List String :=
  ["constructor", "__defineGetter__", "__defineSetter__", "hasOwnProperty",
   "__lookupGetter__", "__lookupSetter__", "isPrototypeOf", "propertyIsEnumerable",
   "toString", "valueOf", "__proto__", "toLocaleString"]

/-- The property read `jar[key]` on a plain object with the own properties
`jar`: the own property if there is one, else what `Object.prototype` holds
under that key, else `undefined`. -/
def readProperty (jar : List (String × String)) (key : String) : JsValue :=
  match jar.lookup key with
  | some s => .str s
  | none => if key ∈ objectPrototypeKeys then .inherited key else .undefined

/-- JavaScript `!v`: `undefined` and the empty string are falsy, functions
and objects are truthy. -/
def JsValue.falsy : JsValue → Bool
  | .undefined => true
  | .str s => s = ""
  | .inherited _ => false

/-- The error `jwt.verify` throws for a token that is not a string. -/
def jwtMustBeString : JsError :=
  ⟨"JsonWebTokenError", "jwt must be a string", none⟩

/-- The error `jwt.verify` throws for a falsy token. -/
def jwtMustBeProvided : JsError :=
  ⟨"JsonWebTokenError", "jwt must be provided", none⟩

/-- The call `jwt.verify(token, secret)` on whatever value the cookie read
produced.  Before anything else `jsonwebtoken` tests `!jwtString` and
`typeof jwtString !== 'string'` and throws; on a string token the parameter
`verify` decides. -/
def verifyValue (verify : Verifier) (token : JsValue) (secret : Option String) :
    Except JsError Claim :=
  match token with
  | .undefined => .error jwtMustBeProvided
  | .inherited _ => .error jwtMustBeString
  | .str s => verify s secret

/-- Lines 5 to 13 of `authenticate.js`, the body of `try`. -/
def tryBlock (env : Env) (verify : Verifier) (next : Next) (req : Request) : TryState :=
  match req.cookies with
  | none =>
    -- `req.cookies[...]` on `undefined`
    ⟨req, [], [], some (.object ⟨"TypeError", readOfUndefinedMessage (cookieKey env), none⟩)⟩
  | some jar =>
    let cookie := readProperty jar (cookieKey env)
    if cookie.falsy then
      -- `if (!cookie) throw new Error(...)`
      ⟨req, [], [], some (.object notSignedIn)⟩
    else
      match verifyValue verify cookie env.JWT_SECRET with
      | .error e => ⟨req, [(cookie, env.JWT_SECRET)], [], some (.object e)⟩
      | .ok user =>
        let req1 := { req with user := some user }
        ⟨req1, [(cookie, env.JWT_SECRET)], [⟨req1, none⟩], next req1 none⟩

/-- Lines 14 to 17 of `authenticate.js`, the body of `catch (e)`. -/
def catchBlock (next : Next) (s : TryState) (e : Thrown) : Run :=
  match e with
  | .nullish =>
    -- `e.status = 401` throws; nothing catches it, the promise rejects
    ⟨s.req, s.verifyCalls, s.calls, .rejected (.object ⟨"TypeError", setOfUndefinedMessage, none⟩)⟩
  | .primitive text =>
    match next s.req (some (.primitive text)) with
    | none => ⟨s.req, s.verifyCalls, s.calls ++ [⟨s.req, some (.primitive text)⟩], .resolved⟩
    | some t => ⟨s.req, s.verifyCalls, s.calls ++ [⟨s.req, some (.primitive text)⟩], .rejected t⟩
  | .object err =>
    let e1 : Thrown := .object { err with status := some 401 }
    match next s.req (some e1) with
    | none => ⟨s.req, s.verifyCalls, s.calls ++ [⟨s.req, some e1⟩], .resolved⟩
    | some t => ⟨s.req, s.verifyCalls, s.calls ++ [⟨s.req, some e1⟩], .rejected t⟩

/-- The middleware exported by `authenticate.js`. -/
def authenticate (env : Env) (verify : Verifier) (next : Next) (req : Request) : Run :=
  let s := tryBlock env verify next req
  match s.thrown with
  | none => ⟨s.req, s.verifyCalls, s.calls, .resolved⟩
  | some e => catchBlock next s e

/-! ## Vocabulary of the specification -/

/-- The session cookie a request carries under the configured name, if any
(an own property of the cookie map): `none` both when the cookie map lacks
the name and when there is no map. -/
def sessionCookie (env : Env) (req : Request) : Option String :=
  req.cookies.bind (fun jar => jar.lookup (cookieKey env))

/-- Terminal outcome of the gate in the words of the specification. -/
inductive Outcome where
  | authenticated (identity : Option Claim)
  | rejected (status : Option Nat)
  | undecided
deriving DecidableEq, Repr

/-- Status carried by a value handed to the continuation. -/
def Thrown.status : Thrown → Option Nat
  | .object e => e.status
  | .primitive _ => none
  | .nullish => none

/-- Argument of the first call of the continuation, which is the decision
of the gate. -/
def firstArg (run : Run) : Option (Option Thrown) :=
  run.calls.head?.map (fun c => c.arg)

/-- The outcome read off the first call of the continuation. -/
def outcome (run : Run) : Outcome :=
  match run.calls.head? with
  | none => .undecided
  | some ⟨r, none⟩ => .authenticated r.user
  | some ⟨_, some t⟩ => .rejected t.status

/-- Decision of the authorization policy. -/
inductive Decision where
  | allow
  | deny (status : Nat)
deriving DecidableEq, Repr

/-- Modelled from the spec: the authorization middleware of the repository
is not among the sources at hand (only the route tests are).  Section 4.4:
allow iff the role of the identity equals the required role or is
hierarchically superior, "admin" being superior to every role; a denial
surfaces status 401. -/
def authorize (identity : Claim) (requiredRole : String) : Decision :=
  if identity.role = requiredRole ∨ identity.role = "admin" then .allow else .deny 401

/-- Modelled from the spec: the route layer is not among the sources at
hand.  Section 6: an allowed request is answered 200 by the route, a denied
one with the status of the denial. -/
def responseStatus : Decision → Nat
  | .allow => 200
  | .deny status => status

/-- Argument of the first call of the continuation as a function of the
cookie map at the configured name: `none` without a cookie map, `some none`
when the map lacks the name, `some (some c)` when it holds `c`. -/
def decisionArg (env : Env) (verify : Verifier) (slot : Option (Option String)) :
    Option Thrown :=
  match slot with
  | none => some (.object ⟨"TypeError", readOfUndefinedMessage (cookieKey env), some 401⟩)
  | some none =>
    if cookieKey env ∈ objectPrototypeKeys then
      some (.object { jwtMustBeString with status := some 401 })
    else some (.object { notSignedIn with status := some 401 })
  | some (some cookie) =>
    if cookie = "" then some (.object { notSignedIn with status := some 401 })
    else
      match verify cookie env.JWT_SECRET with
      | .error e => some (.object { e with status := some 401 })
      | .ok _ => none

/-- Outcome of the gate as a function of the session cookie alone. -/
def decisionOutcome (env : Env) (verify : Verifier) (cookie : Option String) : Outcome :=
  match cookie with
  | none => .rejected (some 401)
  | some c =>
    if c = "" then .rejected (some 401)
    else
      match verify c env.JWT_SECRET with
      | .error _ => .rejected (some 401)
      | .ok u => .authenticated (some u)

/-! ## Sample inputs -/

/-- A configured environment. -/
def sampleEnv : Env := ⟨some "session", some "s3cr3t"⟩

/-- An environment whose signing secret is unset. -/
def noSecretEnv : Env := ⟨some "session", none⟩

/-- An environment whose signing secret is the empty string. -/
def emptySecretEnv : Env := ⟨some "session", some ""⟩

/-- A user identity. -/
def alice : Claim := ⟨"u1", "user", 1700000000⟩

/-- An admin identity. -/
def root : Claim := ⟨"u0", "admin", 1700000000⟩

/-- A verifier that accepts exactly the token "good" under the secret of
`sampleEnv` and rejects the rest the way `jsonwebtoken` words it. -/
def sampleVerify : Verifier := fun token secret =>
  match secret with
  | none => .error ⟨"JsonWebTokenError", "secret or public key must be provided", none⟩
  | some key =>
    if token = "good" ∧ key = "s3cr3t" then .ok alice
    else .error ⟨"JsonWebTokenError", "jwt malformed", none⟩

/-- A verifier that accepts every token, whatever the secret. -/
def acceptAll : Verifier := fun _ _ => .ok alice

/-- An environment whose cookie name is a property every object inherits. -/
def inheritedNameEnv : Env := ⟨some "toString", some "s3cr3t"⟩

/-- A request whose cookie map holds another cookie only. -/
def themeRequest : Request := ⟨some [("theme", "dark")], none, [], ""⟩

/-- A continuation that always returns normally. -/
def quietNext : Next := fun _ _ => none

/-- A continuation whose downstream handler throws when entered and whose
error path returns normally. -/
def throwingNext : Next := fun _ arg =>
  match arg with
  | none => some (.object ⟨"Error", "boom", none⟩)
  | some _ => none

/-- A request without a cookie map. -/
def bareRequest : Request := ⟨none, none, [], ""⟩

/-- A request with an empty cookie map. -/
def anonymousRequest : Request := ⟨some [], none, [], ""⟩

/-- A request whose session cookie is the empty string. -/
def emptyCookieRequest : Request := ⟨some [("session", "")], none, [], ""⟩

/-- A request carrying the token "good". -/
def goodRequest : Request := ⟨some [("session", "good")], none, [], ""⟩

/-- A request carrying a token that is no JWT. -/
def garbageRequest : Request := ⟨some [("session", "garbage")], none, [], ""⟩

/-- A request carrying the token "good" among other cookies, headers, a body
and a stale `req.user`. -/
def noisyRequest : Request :=
  ⟨some [("theme", "dark"), ("session", "good")], some root, [("x-trace", "1")], "payload"⟩

/-! ## Case analysis of a run -/

/-- The catch block on an error object: one more call of the continuation,
with the status overwritten by 401. -/
theorem catchBlock_object_calls (next : Next) (s : TryState) (err : JsError) :
    (catchBlock next s (.object err)).calls
      = s.calls ++ [⟨s.req, some (.object { err with status := some 401 })⟩] := by
  simp only [catchBlock]
  split <;> rfl

/-- The catch block on a primitive: one more call of the continuation, with
the primitive as it is. -/
theorem catchBlock_primitive_calls (next : Next) (s : TryState) (text : String) :
    (catchBlock next s (.primitive text)).calls
      = s.calls ++ [⟨s.req, some (.primitive text)⟩] := by
  simp only [catchBlock]
  split <;> rfl

/-- The catch block on `null`/`undefined`: no further call. -/
theorem catchBlock_nullish_calls (next : Next) (s : TryState) :
    (catchBlock next s .nullish).calls = s.calls := rfl

/-- The catch block never touches the request. -/
theorem catchBlock_req (next : Next) (s : TryState) (e : Thrown) :
    (catchBlock next s e).req = s.req := by
  cases e with
  | nullish => rfl
  | primitive text => simp only [catchBlock]; split <;> rfl
  | object err => simp only [catchBlock]; split <;> rfl

/-- The catch block never calls the verifier. -/
theorem catchBlock_verifyCalls (next : Next) (s : TryState) (e : Thrown) :
    (catchBlock next s e).verifyCalls = s.verifyCalls := by
  cases e with
  | nullish => rfl
  | primitive text => simp only [catchBlock]; split <;> rfl
  | object err => simp only [catchBlock]; split <;> rfl

/-- A run on a request without a cookie map. -/
theorem authenticate_of_no_jar (env : Env) (verify : Verifier) (next : Next) (req : Request)
    (hc : req.cookies = none) :
    authenticate env verify next req
      = catchBlock next
          ⟨req, [], [], some (.object ⟨"TypeError", readOfUndefinedMessage (cookieKey env), none⟩)⟩
          (.object ⟨"TypeError", readOfUndefinedMessage (cookieKey env), none⟩) := by
  simp [authenticate, tryBlock, hc]

/-- A run on a request whose cookie map holds the empty string for the
session cookie, or lacks it under a name that nothing is inherited for. -/
theorem authenticate_of_falsy (env : Env) (verify : Verifier) (next : Next) (req : Request)
    (jar : List (String × String)) (hc : req.cookies = some jar)
    (hl : jar.lookup (cookieKey env) = some ""
      ∨ (jar.lookup (cookieKey env) = none ∧ cookieKey env ∉ objectPrototypeKeys)) :
    authenticate env verify next req
      = catchBlock next ⟨req, [], [], some (.object notSignedIn)⟩ (.object notSignedIn) := by
  rcases hl with hl | ⟨hl, hk⟩
  · simp [authenticate, tryBlock, hc, readProperty, hl, JsValue.falsy]
  · simp [authenticate, tryBlock, hc, readProperty, hl, hk, JsValue.falsy]

/-- A run on a request whose cookie map lacks the session cookie under a name
that every object inherits: the inherited value is truthy and reaches the
verifier, which refuses it. -/
theorem authenticate_of_inherited (env : Env) (verify : Verifier) (next : Next) (req : Request)
    (jar : List (String × String)) (hc : req.cookies = some jar)
    (hl : jar.lookup (cookieKey env) = none) (hk : cookieKey env ∈ objectPrototypeKeys) :
    authenticate env verify next req
      = catchBlock next
          ⟨req, [(.inherited (cookieKey env), env.JWT_SECRET)], [],
            some (.object jwtMustBeString)⟩
          (.object jwtMustBeString) := by
  simp [authenticate, tryBlock, hc, readProperty, hl, hk, JsValue.falsy, verifyValue]

/-- A run on a request whose token the verifier rejects. -/
theorem authenticate_of_invalid (env : Env) (verify : Verifier) (next : Next) (req : Request)
    (cookie : String) (e : JsError) (hs : sessionCookie env req = some cookie)
    (hne : cookie ≠ "") (hv : verify cookie env.JWT_SECRET = .error e) :
    authenticate env verify next req
      = catchBlock next ⟨req, [(.str cookie, env.JWT_SECRET)], [], some (.object e)⟩
          (.object e) := by
  cases hc : req.cookies with
  | none => simp [sessionCookie, hc] at hs
  | some jar =>
    simp [sessionCookie, hc] at hs
    simp [authenticate, tryBlock, hc, readProperty, hs, hne, hv, JsValue.falsy, verifyValue]

/-- State at the end of the try block on a request whose token the verifier
accepts. -/
theorem tryBlock_of_valid (env : Env) (verify : Verifier) (next : Next) (req : Request)
    (cookie : String) (u : Claim) (hs : sessionCookie env req = some cookie)
    (hne : cookie ≠ "") (hv : verify cookie env.JWT_SECRET = .ok u) :
    tryBlock env verify next req
      = ⟨{ req with user := some u }, [(.str cookie, env.JWT_SECRET)],
          [⟨{ req with user := some u }, none⟩], next { req with user := some u } none⟩ := by
  cases hc : req.cookies with
  | none => simp [sessionCookie, hc] at hs
  | some jar =>
    simp [sessionCookie, hc] at hs
    simp [tryBlock, hc, readProperty, hs, hne, hv, JsValue.falsy, verifyValue]

/-- A request has no cookie map, or a falsy session cookie, or none but an
inherited value under the name, or a non-empty token on which the verifier
decides. -/
theorem sessionCookie_cases (env : Env) (verify : Verifier) (req : Request) :
    req.cookies = none
    ∨ (∃ jar, req.cookies = some jar
        ∧ (jar.lookup (cookieKey env) = some ""
          ∨ (jar.lookup (cookieKey env) = none ∧ cookieKey env ∉ objectPrototypeKeys)))
    ∨ (∃ jar, req.cookies = some jar
        ∧ jar.lookup (cookieKey env) = none ∧ cookieKey env ∈ objectPrototypeKeys)
    ∨ (∃ cookie e, sessionCookie env req = some cookie ∧ cookie ≠ ""
        ∧ verify cookie env.JWT_SECRET = .error e)
    ∨ (∃ cookie u, sessionCookie env req = some cookie ∧ cookie ≠ ""
        ∧ verify cookie env.JWT_SECRET = .ok u) := by
  cases hc : req.cookies with
  | none => exact Or.inl rfl
  | some jar =>
    right
    cases hl : jar.lookup (cookieKey env) with
    | none =>
      by_cases hk : cookieKey env ∈ objectPrototypeKeys
      · exact Or.inr (Or.inl ⟨jar, rfl, hl, hk⟩)
      · exact Or.inl ⟨jar, rfl, Or.inr ⟨hl, hk⟩⟩
    | some cookie =>
      by_cases hne : cookie = ""
      · subst hne; exact Or.inl ⟨jar, rfl, Or.inl hl⟩
      · right; right
        have hs : sessionCookie env req = some cookie := by simp [sessionCookie, hc, hl]
        cases hv : verify cookie env.JWT_SECRET with
        | error e => exact Or.inl ⟨cookie, e, hs, hne, hv⟩
        | ok u => exact Or.inr ⟨cookie, u, hs, hne, hv⟩

/-- The first call of the continuation is determined by the configuration,
the verifier and the cookie slot of the request. -/
theorem firstArg_authenticate (env : Env) (verify : Verifier) (next : Next) (req : Request) :
    firstArg (authenticate env verify next req)
      = some (decisionArg env verify (req.cookies.map (fun jar => jar.lookup (cookieKey env)))) := by
  rcases sessionCookie_cases env verify req with hc | ⟨jar, hc, hl⟩ | ⟨jar, hc, hl, hk⟩ |
    ⟨c, e, hs, hne, hv⟩ | ⟨c, u, hs, hne, hv⟩
  · rw [authenticate_of_no_jar env verify next req hc]
    simp [firstArg, catchBlock_object_calls, decisionArg, hc]
  · rw [authenticate_of_falsy env verify next req jar hc hl]
    rcases hl with hl | ⟨hl, hk⟩ <;>
      simp [firstArg, catchBlock_object_calls, decisionArg, hc, hl, *]
  · rw [authenticate_of_inherited env verify next req jar hc hl hk]
    simp [firstArg, catchBlock_object_calls, decisionArg, hc, hl, hk]
  · rw [authenticate_of_invalid env verify next req c e hs hne hv]
    cases hc : req.cookies with
    | none => simp [sessionCookie, hc] at hs
    | some jar =>
      have hl : jar.lookup (cookieKey env) = some c := by simpa [sessionCookie, hc] using hs
      simp [firstArg, catchBlock_object_calls, decisionArg, hl, hne, hv]
  · have ht := tryBlock_of_valid env verify next req c u hs hne hv
    cases hc : req.cookies with
    | none => simp [sessionCookie, hc] at hs
    | some jar =>
      have hl : jar.lookup (cookieKey env) = some c := by simpa [sessionCookie, hc] using hs
      cases hn : next { req with user := some u } none with
      | none => simp [firstArg, authenticate, ht, hn, decisionArg, hl, hne, hv]
      | some t =>
        cases t with
        | nullish => simp [firstArg, authenticate, ht, hn, catchBlock, decisionArg, hl, hne, hv]
        | primitive text =>
          simp [firstArg, authenticate, ht, hn, catchBlock_primitive_calls, decisionArg, hl, hne,
            hv]
        | object err =>
          simp [firstArg, authenticate, ht, hn, catchBlock_object_calls, decisionArg, hl, hne, hv]

/-- The outcome of the gate is determined by the configuration, the verifier
and the session cookie. -/
theorem outcome_authenticate (env : Env) (verify : Verifier) (next : Next) (req : Request) :
    outcome (authenticate env verify next req)
      = decisionOutcome env verify (sessionCookie env req) := by
  rcases sessionCookie_cases env verify req with hc | ⟨jar, hc, hl⟩ | ⟨jar, hc, hl, hk⟩ |
    ⟨c, e, hs, hne, hv⟩ | ⟨c, u, hs, hne, hv⟩
  · rw [authenticate_of_no_jar env verify next req hc]
    simp [outcome, catchBlock_object_calls, decisionOutcome, sessionCookie, hc, Thrown.status]
  · rw [authenticate_of_falsy env verify next req jar hc hl]
    rcases hl with hl | ⟨hl, hk⟩ <;>
      simp [outcome, catchBlock_object_calls, decisionOutcome, sessionCookie, hc, hl,
        Thrown.status]
  · rw [authenticate_of_inherited env verify next req jar hc hl hk]
    simp [outcome, catchBlock_object_calls, decisionOutcome, sessionCookie, hc, hl,
      Thrown.status, jwtMustBeString]
  · rw [authenticate_of_invalid env verify next req c e hs hne hv]
    simp [outcome, catchBlock_object_calls, decisionOutcome, hs, hne, hv, Thrown.status]
  · have ht := tryBlock_of_valid env verify next req c u hs hne hv
    cases hn : next { req with user := some u } none with
    | none => simp [outcome, authenticate, ht, hn, decisionOutcome, hs, hne, hv]
    | some t =>
      cases t with
      | nullish => simp [outcome, authenticate, ht, hn, catchBlock, decisionOutcome, hs, hne, hv]
      | primitive text =>
        simp [outcome, authenticate, ht, hn, catchBlock_primitive_calls, decisionOutcome, hs, hne,
          hv]
      | object err =>
        simp [outcome, authenticate, ht, hn, catchBlock_object_calls, decisionOutcome, hs, hne, hv]

/-- With a continuation that never throws, the gate calls it exactly once
and completes. -/
theorem authenticate_of_quiet (env : Env) (verify : Verifier) (next : Next) (req : Request)
    (h : ∀ r a, next r a = none) :
    (authenticate env verify next req).completion = .resolved
    ∧ (authenticate env verify next req).calls.length = 1 := by
  rcases sessionCookie_cases env verify req with hc | ⟨jar, hc, hl⟩ | ⟨jar, hc, hl, hk⟩ |
    ⟨c, e, hs, hne, hv⟩ | ⟨c, u, hs, hne, hv⟩
  · rw [authenticate_of_no_jar env verify next req hc]
    simp [catchBlock, h]
  · rw [authenticate_of_falsy env verify next req jar hc hl]
    simp [catchBlock, h]
  · rw [authenticate_of_inherited env verify next req jar hc hl hk]
    simp [catchBlock, h]
  · rw [authenticate_of_invalid env verify next req c e hs hne hv]
    simp [catchBlock, h]
  · have ht := tryBlock_of_valid env verify next req c u hs hne hv
    simp [authenticate, ht, h]

/-! ## The authentication gate -/

/-- C1: a request that carries no cookie under the configured name (no cookie
map, or a map without that name) is rejected: the continuation is called
exactly once, with an error object whose status is 401, and so never without
an error, whatever the verifier and the continuation do. -/
theorem gate_rejects_missing_cookie (env : Env) (verify : Verifier) (next : Next)
    (req : Request) (h : sessionCookie env req = none) :
    ∃ e : JsError,
      (authenticate env verify next req).calls = [⟨req, some (.object e)⟩]
      ∧ e.status = some 401
      ∧ ∀ c ∈ (authenticate env verify next req).calls, c.arg ≠ none := by
  cases hc : req.cookies with
  | none =>
    refine ⟨⟨"TypeError", readOfUndefinedMessage (cookieKey env), some 401⟩, ?_, rfl, ?_⟩
    · rw [authenticate_of_no_jar env verify next req hc, catchBlock_object_calls]; rfl
    · rw [authenticate_of_no_jar env verify next req hc, catchBlock_object_calls]
      intro c hmem
      simp only [List.nil_append, List.mem_singleton] at hmem
      subst hmem
      simp
  | some jar =>
    have hl : jar.lookup (cookieKey env) = none := by simpa [sessionCookie, hc] using h
    by_cases hk : cookieKey env ∈ objectPrototypeKeys
    · refine ⟨{ jwtMustBeString with status := some 401 }, ?_, rfl, ?_⟩
      · rw [authenticate_of_inherited env verify next req jar hc hl hk, catchBlock_object_calls]
        rfl
      · rw [authenticate_of_inherited env verify next req jar hc hl hk, catchBlock_object_calls]
        intro c hmem
        simp only [List.nil_append, List.mem_singleton] at hmem
        subst hmem
        simp
    · refine ⟨{ notSignedIn with status := some 401 }, ?_, rfl, ?_⟩
      · rw [authenticate_of_falsy env verify next req jar hc (Or.inr ⟨hl, hk⟩),
          catchBlock_object_calls]
        rfl
      · rw [authenticate_of_falsy env verify next req jar hc (Or.inr ⟨hl, hk⟩),
          catchBlock_object_calls]
        intro c hmem
        simp only [List.nil_append, List.mem_singleton] at hmem
        subst hmem
        simp

/-- Witness of C1 on a request with an empty cookie map. -/
theorem gate_rejects_missing_cookie_witness :
    sessionCookie sampleEnv anonymousRequest = none
    ∧ ∃ e : JsError,
      (authenticate sampleEnv sampleVerify quietNext anonymousRequest).calls
        = [⟨anonymousRequest, some (.object e)⟩]
      ∧ e.status = some 401
      ∧ ∀ c ∈ (authenticate sampleEnv sampleVerify quietNext anonymousRequest).calls,
          c.arg ≠ none :=
  ⟨by decide,
   gate_rejects_missing_cookie sampleEnv sampleVerify quietNext anonymousRequest (by decide)⟩

/-- C2: when the session cookie is present and non-empty and verifying that
very value against the configured secret yields the claim `u`, the gate sets
`req.user` to `u` and then calls the continuation without an error, the
request already carrying `u` at that call; if that call returns normally it
is the only call and the gate completes. -/
theorem gate_binds_verified_user (env : Env) (verify : Verifier) (next : Next)
    (req : Request) (cookie : String) (u : Claim)
    (hs : sessionCookie env req = some cookie) (hne : cookie ≠ "")
    (hv : verify cookie env.JWT_SECRET = .ok u) :
    (authenticate env verify next req).req = { req with user := some u }
    ∧ (authenticate env verify next req).verifyCalls = [(.str cookie, env.JWT_SECRET)]
    ∧ (∃ rest, (authenticate env verify next req).calls
          = ⟨{ req with user := some u }, none⟩ :: rest)
    ∧ (next { req with user := some u } none = none →
        (authenticate env verify next req).calls = [⟨{ req with user := some u }, none⟩]
        ∧ (authenticate env verify next req).completion = .resolved) := by
  have ht := tryBlock_of_valid env verify next req cookie u hs hne hv
  cases hn : next { req with user := some u } none with
  | none =>
    have hrun : authenticate env verify next req
        = ⟨{ req with user := some u }, [(.str cookie, env.JWT_SECRET)],
            [⟨{ req with user := some u }, none⟩], .resolved⟩ := by
      simp [authenticate, ht, hn]
    rw [hrun]
    exact ⟨rfl, rfl, ⟨[], rfl⟩, fun _ => ⟨rfl, rfl⟩⟩
  | some t =>
    have hrun : authenticate env verify next req
        = catchBlock next
            ⟨{ req with user := some u }, [(.str cookie, env.JWT_SECRET)],
              [⟨{ req with user := some u }, none⟩], some t⟩ t := by
      simp [authenticate, ht, hn]
    rw [hrun]
    refine ⟨by rw [catchBlock_req], by rw [catchBlock_verifyCalls], ?_, fun h => by simp at h⟩
    cases t with
    | nullish => exact ⟨[], rfl⟩
    | primitive text =>
      simp only [catchBlock]
      split <;> exact ⟨_, rfl⟩
    | object err =>
      rw [catchBlock_object_calls]
      exact ⟨_, rfl⟩

/-- Witness of C2 on a request carrying a token the verifier accepts. -/
theorem gate_binds_verified_user_witness :
    sessionCookie sampleEnv goodRequest = some "good" ∧ "good" ≠ ""
    ∧ sampleVerify "good" sampleEnv.JWT_SECRET = .ok alice
    ∧ (authenticate sampleEnv sampleVerify quietNext goodRequest).req
        = { goodRequest with user := some alice }
    ∧ (authenticate sampleEnv sampleVerify quietNext goodRequest).verifyCalls
        = [(.str "good", sampleEnv.JWT_SECRET)]
    ∧ (∃ rest, (authenticate sampleEnv sampleVerify quietNext goodRequest).calls
          = ⟨{ goodRequest with user := some alice }, none⟩ :: rest)
    ∧ (quietNext { goodRequest with user := some alice } none = none →
        (authenticate sampleEnv sampleVerify quietNext goodRequest).calls
          = [⟨{ goodRequest with user := some alice }, none⟩]
        ∧ (authenticate sampleEnv sampleVerify quietNext goodRequest).completion = .resolved) :=
  ⟨by decide, by decide, rfl,
   gate_binds_verified_user sampleEnv sampleVerify quietNext goodRequest "good" alice
     (by decide) (by decide) rfl⟩

/-- C3: when the session cookie is present and its verification fails with
an error `e`, the continuation is called exactly once, with an error object
whose status is 401 (the status of a missing cookie, see C1), and the request
is left as it was, `req.user` included; for a non-empty cookie that error is
`e` itself with its status, whatever it was, overwritten by 401. -/
theorem gate_rejects_failed_verification (env : Env) (verify : Verifier) (next : Next)
    (req : Request) (cookie : String) (e : JsError)
    (hs : sessionCookie env req = some cookie)
    (hv : verify cookie env.JWT_SECRET = .error e) :
    (∃ e1 : JsError,
      (authenticate env verify next req).calls = [⟨req, some (.object e1)⟩]
      ∧ e1.status = some 401
      ∧ (cookie ≠ "" → e1 = { e with status := some 401 }))
    ∧ (authenticate env verify next req).req = req := by
  by_cases hne : cookie = ""
  · subst hne
    cases hc : req.cookies with
    | none => simp [sessionCookie, hc] at hs
    | some jar =>
      have hl : jar.lookup (cookieKey env) = some "" := by simpa [sessionCookie, hc] using hs
      rw [authenticate_of_falsy env verify next req jar hc (Or.inl hl), catchBlock_req,
        catchBlock_object_calls]
      exact ⟨⟨{ notSignedIn with status := some 401 }, rfl, rfl, fun h => absurd rfl h⟩, rfl⟩
  · rw [authenticate_of_invalid env verify next req cookie e hs hne hv, catchBlock_req,
      catchBlock_object_calls]
    exact ⟨⟨{ e with status := some 401 }, rfl, rfl, fun _ => rfl⟩, rfl⟩

/-- Witness of C3 on a request carrying a token the verifier rejects. -/
theorem gate_rejects_failed_verification_witness :
    sessionCookie sampleEnv garbageRequest = some "garbage"
    ∧ sampleVerify "garbage" sampleEnv.JWT_SECRET
        = .error ⟨"JsonWebTokenError", "jwt malformed", none⟩
    ∧ (∃ e1 : JsError,
        (authenticate sampleEnv sampleVerify quietNext garbageRequest).calls
          = [⟨garbageRequest, some (.object e1)⟩]
        ∧ e1.status = some 401
        ∧ ("garbage" ≠ "" →
            e1 = { (⟨"JsonWebTokenError", "jwt malformed", none⟩ : JsError) with
                    status := some 401 }))
    ∧ (authenticate sampleEnv sampleVerify quietNext garbageRequest).req = garbageRequest :=
  ⟨by decide, rfl,
   gate_rejects_failed_verification sampleEnv sampleVerify quietNext garbageRequest "garbage"
     ⟨"JsonWebTokenError", "jwt malformed", none⟩ (by decide) rfl⟩

/-- C4, as stated, fails: a request without the cookie is rejected with the
message of the gate, a request with a malformed token with the message of the
verifier, so the two rejections do not share their message. -/
theorem rejection_message_not_uniform :
    ¬ (∀ (env : Env) (verify : Verifier) (next : Next) (r1 r2 : Request) (cookie : String)
        (e e1 e2 : JsError),
        sessionCookie env r1 = none →
        sessionCookie env r2 = some cookie → cookie ≠ "" →
        verify cookie env.JWT_SECRET = .error e →
        (authenticate env verify next r1).calls = [⟨r1, some (.object e1)⟩] →
        (authenticate env verify next r2).calls = [⟨r2, some (.object e2)⟩] →
        e1.status = e2.status ∧ e1.message = e2.message) := by
  intro h
  have hm := (h sampleEnv sampleVerify quietNext anonymousRequest garbageRequest "garbage"
    ⟨"JsonWebTokenError", "jwt malformed", none⟩
    ⟨"Error", "You must be signed in to continue", some 401⟩
    ⟨"JsonWebTokenError", "jwt malformed", some 401⟩
    (by decide) (by decide) (by decide) rfl (by decide) (by decide)).2
  revert hm
  decide

/-- C4, amended: a request without the cookie and a request whose non-empty
token fails verification are both rejected with an error object of status
401; the message is not unified: the failed verification carries the message
of the error the verifier threw, a missing cookie carries the message of the
gate when the request has a cookie map and the configured name is not one
every object inherits. -/
theorem rejection_status_uniform (env : Env) (verify : Verifier) (next : Next)
    (r1 r2 : Request) (cookie : String) (e : JsError)
    (h1 : sessionCookie env r1 = none)
    (h2 : sessionCookie env r2 = some cookie) (hne : cookie ≠ "")
    (hv : verify cookie env.JWT_SECRET = .error e) :
    ∃ e1 e2 : JsError,
      (authenticate env verify next r1).calls = [⟨r1, some (.object e1)⟩]
      ∧ (authenticate env verify next r2).calls = [⟨r2, some (.object e2)⟩]
      ∧ e1.status = some 401 ∧ e2.status = some 401
      ∧ e2.message = e.message
      ∧ (r1.cookies ≠ none → cookieKey env ∉ objectPrototypeKeys →
          e1.message = "You must be signed in to continue") := by
  have hr2 := authenticate_of_invalid env verify next r2 cookie e h2 hne hv
  cases hc : r1.cookies with
  | none =>
    refine ⟨⟨"TypeError", readOfUndefinedMessage (cookieKey env), some 401⟩,
      { e with status := some 401 }, ?_, ?_, rfl, rfl, rfl, fun hx => absurd rfl hx⟩
    · rw [authenticate_of_no_jar env verify next r1 hc, catchBlock_object_calls]; rfl
    · rw [hr2, catchBlock_object_calls]; rfl
  | some jar =>
    have hl : jar.lookup (cookieKey env) = none := by simpa [sessionCookie, hc] using h1
    by_cases hk : cookieKey env ∈ objectPrototypeKeys
    · refine ⟨{ jwtMustBeString with status := some 401 }, { e with status := some 401 },
        ?_, ?_, rfl, rfl, rfl, fun _ hx => absurd hk hx⟩
      · rw [authenticate_of_inherited env verify next r1 jar hc hl hk, catchBlock_object_calls]
        rfl
      · rw [hr2, catchBlock_object_calls]; rfl
    · refine ⟨{ notSignedIn with status := some 401 }, { e with status := some 401 },
        ?_, ?_, rfl, rfl, rfl, fun _ _ => rfl⟩
      · rw [authenticate_of_falsy env verify next r1 jar hc (Or.inr ⟨hl, hk⟩),
          catchBlock_object_calls]
        rfl
      · rw [hr2, catchBlock_object_calls]; rfl

/-- Witness of the amended C4. -/
theorem rejection_status_uniform_witness :
    sessionCookie sampleEnv anonymousRequest = none
    ∧ sessionCookie sampleEnv garbageRequest = some "garbage" ∧ "garbage" ≠ ""
    ∧ anonymousRequest.cookies ≠ none ∧ cookieKey sampleEnv ∉ objectPrototypeKeys
    ∧ ∃ e1 e2 : JsError,
      (authenticate sampleEnv sampleVerify quietNext anonymousRequest).calls
        = [⟨anonymousRequest, some (.object e1)⟩]
      ∧ (authenticate sampleEnv sampleVerify quietNext garbageRequest).calls
        = [⟨garbageRequest, some (.object e2)⟩]
      ∧ e1.status = some 401 ∧ e2.status = some 401
      ∧ e2.message = (⟨"JsonWebTokenError", "jwt malformed", none⟩ : JsError).message
      ∧ (anonymousRequest.cookies ≠ none → cookieKey sampleEnv ∉ objectPrototypeKeys →
          e1.message = "You must be signed in to continue") :=
  ⟨by decide, by decide, by decide, by decide, by decide,
   rejection_status_uniform sampleEnv sampleVerify quietNext anonymousRequest garbageRequest
     "garbage" ⟨"JsonWebTokenError", "jwt malformed", none⟩ (by decide) (by decide) (by decide)
     rfl⟩

/-- C5, as stated, fails: `next()` sits inside the `try` block, so when the
downstream pipeline throws after being entered, the gate catches the value
and calls the continuation a second time, now with an error of status 401. -/
theorem continuation_called_twice :
    ¬ (∀ (env : Env) (verify : Verifier) (next : Next) (req : Request),
        ¬ ((∃ c ∈ (authenticate env verify next req).calls, c.arg = none)
          ∧ (∃ c ∈ (authenticate env verify next req).calls, c.arg ≠ none))) := by
  intro h
  apply h sampleEnv sampleVerify throwingNext goodRequest
  have hcalls : (authenticate sampleEnv sampleVerify throwingNext goodRequest).calls
      = [⟨{ goodRequest with user := some alice }, none⟩,
         ⟨{ goodRequest with user := some alice },
           some (.object ⟨"Error", "boom", some 401⟩)⟩] := by decide
  rw [hcalls]
  exact ⟨⟨_, List.mem_cons_self _ _, rfl⟩,
    ⟨_, List.mem_cons_of_mem _ (List.mem_cons_self _ _), by simp⟩⟩

/-- C5, amended: for every request and every continuation whose call without
an error returns normally, the gate reaches exactly one terminal outcome: the
continuation is called exactly once, either without an error or with an
error object of status 401 on the request as it arrived, never both. -/
theorem gate_single_outcome (env : Env) (verify : Verifier) (next : Next) (req : Request)
    (h : ∀ r, next r none = none) :
    (∃ r, (authenticate env verify next req).calls = [⟨r, none⟩])
    ∨ (∃ e : JsError, (authenticate env verify next req).calls = [⟨req, some (.object e)⟩]
        ∧ e.status = some 401) := by
  rcases sessionCookie_cases env verify req with hc | ⟨jar, hc, hl⟩ | ⟨jar, hc, hl, hk⟩ |
    ⟨c, e, hs, hne, hv⟩ | ⟨c, u, hs, hne, hv⟩
  · right
    rw [authenticate_of_no_jar env verify next req hc, catchBlock_object_calls]
    exact ⟨_, rfl, rfl⟩
  · right
    rw [authenticate_of_falsy env verify next req jar hc hl, catchBlock_object_calls]
    exact ⟨_, rfl, rfl⟩
  · right
    rw [authenticate_of_inherited env verify next req jar hc hl hk, catchBlock_object_calls]
    exact ⟨_, rfl, rfl⟩
  · right
    rw [authenticate_of_invalid env verify next req c e hs hne hv, catchBlock_object_calls]
    exact ⟨_, rfl, rfl⟩
  · left
    have ht := tryBlock_of_valid env verify next req c u hs hne hv
    exact ⟨{ req with user := some u }, by simp [authenticate, ht, h]⟩

/-- Witness of the amended C5. -/
theorem gate_single_outcome_witness :
    (∀ r, quietNext r none = none)
    ∧ ((∃ r, (authenticate sampleEnv sampleVerify quietNext goodRequest).calls = [⟨r, none⟩])
      ∨ (∃ e : JsError, (authenticate sampleEnv sampleVerify quietNext goodRequest).calls
            = [⟨goodRequest, some (.object e)⟩] ∧ e.status = some 401)) :=
  ⟨fun _ => rfl,
   gate_single_outcome sampleEnv sampleVerify quietNext goodRequest (fun _ => rfl)⟩

/-! ## The authorization policy -/

/-- C6: `authorize identity requiredRole` allows iff the role of the identity
equals the required role or is "admin", and otherwise denies with status 401;
a "user" identity gets 401 on an "admin" resource, an "admin" identity gets
200 on "user" and on "admin" resources. -/
theorem authorize_decision (identity : Claim) (requiredRole : String) :
    (authorize identity requiredRole = .allow
        ↔ identity.role = requiredRole ∨ identity.role = "admin")
    ∧ (¬ (identity.role = requiredRole ∨ identity.role = "admin") →
        authorize identity requiredRole = .deny 401)
    ∧ (identity.role = "user" → responseStatus (authorize identity "admin") = 401)
    ∧ (identity.role = "admin" →
        responseStatus (authorize identity "user") = 200
        ∧ responseStatus (authorize identity "admin") = 200) := by
  refine ⟨?_, ?_, ?_, ?_⟩
  · unfold authorize
    split <;> simp_all
  · intro h
    simp [authorize, h]
  · intro h
    have hne : ¬ (identity.role = "admin") := by
      rw [h]; decide
    simp [authorize, hne, responseStatus]
  · intro h
    simp [authorize, h, responseStatus]

/-- Witness of C6 on a user identity and an admin identity. -/
theorem authorize_decision_witness :
    alice.role = "user" ∧ root.role = "admin"
    ∧ authorize alice "guest" = .deny 401
    ∧ responseStatus (authorize alice "admin") = 401
    ∧ responseStatus (authorize root "user") = 200
    ∧ responseStatus (authorize root "admin") = 200 :=
  ⟨rfl, rfl, (authorize_decision alice "guest").2.1 (by decide),
   (authorize_decision alice "admin").2.2.1 rfl,
   ((authorize_decision root "user").2.2.2 rfl).1,
   ((authorize_decision root "admin").2.2.2 rfl).2⟩

/-! ## The signing secret -/

/-- C7, as stated, fails: with `JWT_SECRET` unset the gate still runs the
verifier on a present cookie, handing it the unset secret. -/
theorem verification_runs_without_secret :
    ¬ (∀ (env : Env) (verify : Verifier) (next : Next) (req : Request),
        (env.JWT_SECRET = none ∨ env.JWT_SECRET = some "") →
        (authenticate env verify next req).verifyCalls = []) := by
  intro h
  have hrun := h noSecretEnv sampleVerify quietNext goodRequest (Or.inl rfl)
  revert hrun
  decide

/-- C7, amended: the gate does not look at `JWT_SECRET`; for every request
whose session cookie is present and non-empty it runs the verifier exactly
once, on that cookie and the secret as configured, an unset or empty secret
included. -/
theorem verification_uses_configured_secret (env : Env) (verify : Verifier) (next : Next)
    (req : Request) (cookie : String)
    (hs : sessionCookie env req = some cookie) (hne : cookie ≠ "") :
    (authenticate env verify next req).verifyCalls = [(.str cookie, env.JWT_SECRET)] := by
  cases hv : verify cookie env.JWT_SECRET with
  | error e =>
    rw [authenticate_of_invalid env verify next req cookie e hs hne hv, catchBlock_verifyCalls]
  | ok u =>
    have ht := tryBlock_of_valid env verify next req cookie u hs hne hv
    cases hn : next { req with user := some u } none with
    | none => simp [authenticate, ht, hn]
    | some t => simp [authenticate, ht, hn, catchBlock_verifyCalls]

/-- Witness of the amended C7 with an empty secret. -/
theorem verification_uses_configured_secret_witness :
    sessionCookie emptySecretEnv goodRequest = some "good" ∧ "good" ≠ ""
    ∧ (authenticate emptySecretEnv acceptAll quietNext goodRequest).verifyCalls
        = [(.str "good", some "")] :=
  ⟨by decide, by decide,
   verification_uses_configured_secret emptySecretEnv acceptAll quietNext goodRequest "good"
     (by decide) (by decide)⟩

/-! ## Determinism, short circuit and totality -/

/-- C8: two requests that agree on the session cookie get the same outcome
under the same configuration and verifier, the same bound identity or a
rejection with status 401, whatever their other cookies, headers, body,
`req.user` and continuation; when they also agree on having a cookie map,
the continuation receives the very same argument. -/
theorem gate_outcome_of_cookie_only (env : Env) (verify : Verifier) (next1 next2 : Next)
    (r1 r2 : Request) (h : sessionCookie env r1 = sessionCookie env r2) :
    outcome (authenticate env verify next1 r1) = outcome (authenticate env verify next2 r2)
    ∧ (r1.cookies.isSome = r2.cookies.isSome →
        firstArg (authenticate env verify next1 r1)
          = firstArg (authenticate env verify next2 r2)) := by
  refine ⟨by rw [outcome_authenticate, outcome_authenticate, h], ?_⟩
  intro hj
  rw [firstArg_authenticate, firstArg_authenticate]
  cases hc1 : r1.cookies with
  | none =>
    cases hc2 : r2.cookies with
    | none => rfl
    | some j2 => simp [hc1, hc2] at hj
  | some j1 =>
    cases hc2 : r2.cookies with
    | none => simp [hc1, hc2] at hj
    | some j2 =>
      have hl : j1.lookup (cookieKey env) = j2.lookup (cookieKey env) := by
        simpa [sessionCookie, hc1, hc2] using h
      simp [hl]

/-- Witness of C8: a request with other cookies, a header, a body and a
stale user against the plain request with the same token. -/
theorem gate_outcome_of_cookie_only_witness :
    sessionCookie sampleEnv noisyRequest = sessionCookie sampleEnv goodRequest
    ∧ outcome (authenticate sampleEnv sampleVerify throwingNext noisyRequest)
        = outcome (authenticate sampleEnv sampleVerify quietNext goodRequest)
    ∧ (noisyRequest.cookies.isSome = goodRequest.cookies.isSome →
        firstArg (authenticate sampleEnv sampleVerify throwingNext noisyRequest)
          = firstArg (authenticate sampleEnv sampleVerify quietNext goodRequest)) :=
  ⟨by decide,
   gate_outcome_of_cookie_only sampleEnv sampleVerify throwingNext quietNext noisyRequest
     goodRequest (by decide)⟩

/-- C9, as stated, fails: a request without a cookie map has no cookie under
the configured name, yet it is rejected with the message of the `TypeError`
raised by reading `req.cookies[...]`, not with the message of the gate. -/
theorem missing_cookie_map_message :
    ¬ (∀ (env : Env) (verify : Verifier) (next : Next) (req : Request),
        (sessionCookie env req = none ∨ sessionCookie env req = some "") →
        (∃ e : JsError, (authenticate env verify next req).calls = [⟨req, some (.object e)⟩]
          ∧ e.message = "You must be signed in to continue")
        ∧ (authenticate env verify next req).verifyCalls = []) := by
  intro h
  obtain ⟨⟨e, hcalls, hmsg⟩, _⟩ := h sampleEnv sampleVerify quietNext bareRequest (Or.inl rfl)
  have hrun : (authenticate sampleEnv sampleVerify quietNext bareRequest).calls
      = [⟨bareRequest, some (.object
          ⟨"TypeError", readOfUndefinedMessage "session", some 401⟩)⟩] := by decide
  rw [hrun] at hcalls
  simp only [List.cons.injEq, Call.mk.injEq, Option.some.injEq, Thrown.object.injEq, and_true,
    true_and] at hcalls
  rw [← hcalls] at hmsg
  revert hmsg
  decide

/-- Second input on which C9 fails: the configured name is "toString" and
the cookie map lacks it, so the read yields the inherited function, the
verifier is called on it and its refusal is what the continuation gets. -/
theorem inherited_name_reaches_verifier :
    sessionCookie inheritedNameEnv themeRequest = none
    ∧ (authenticate inheritedNameEnv sampleVerify quietNext themeRequest).verifyCalls
        = [(.inherited "toString", some "s3cr3t")]
    ∧ (authenticate inheritedNameEnv sampleVerify quietNext themeRequest).calls
        = [⟨themeRequest,
            some (.object ⟨"JsonWebTokenError", "jwt must be a string", some 401⟩)⟩] := by
  decide

/-- C9, amended: when the configured cookie name is not a property name
every object inherits, then for every request that has a cookie map in which
the cookie under that name is absent or the empty string, the gate rejects
with the message "You must be signed in to continue" (and status 401)
without invoking the verifier; for every request, cookie map or not, the
verifier is not invoked when the cookie is absent or empty, and is invoked
only when the cookie is present and non-empty.  An empty-string cookie is
rejected this way under any name, and a request without a cookie map never
reaches the verifier under any name. -/
theorem falsy_cookie_skips_verification (env : Env) (verify : Verifier) (next : Next)
    (req : Request) :
    (∀ jar, req.cookies = some jar →
        (jar.lookup (cookieKey env) = some ""
          ∨ (jar.lookup (cookieKey env) = none ∧ cookieKey env ∉ objectPrototypeKeys)) →
        (authenticate env verify next req).calls
            = [⟨req, some (.object ⟨"Error", "You must be signed in to continue", some 401⟩)⟩]
          ∧ (authenticate env verify next req).verifyCalls = [])
    ∧ ((req.cookies = none ∨ sessionCookie env req = some ""
          ∨ (sessionCookie env req = none ∧ cookieKey env ∉ objectPrototypeKeys)) →
        (authenticate env verify next req).verifyCalls = [])
    ∧ (cookieKey env ∉ objectPrototypeKeys →
        (authenticate env verify next req).verifyCalls ≠ [] →
        ∃ cookie, sessionCookie env req = some cookie ∧ cookie ≠ "") := by
  have hskip0 : (req.cookies = none ∨ sessionCookie env req = some ""
        ∨ (sessionCookie env req = none ∧ cookieKey env ∉ objectPrototypeKeys)) →
      (authenticate env verify next req).verifyCalls = [] := by
    intro h
    cases hc : req.cookies with
    | none => rw [authenticate_of_no_jar env verify next req hc, catchBlock_verifyCalls]
    | some jar =>
      have hl2 : jar.lookup (cookieKey env) = some ""
          ∨ (jar.lookup (cookieKey env) = none ∧ cookieKey env ∉ objectPrototypeKeys) := by
        rcases h with h | h | ⟨h, hk⟩
        · simp [hc] at h
        · exact Or.inl (by simpa [sessionCookie, hc] using h)
        · exact Or.inr ⟨by simpa [sessionCookie, hc] using h, hk⟩
      rw [authenticate_of_falsy env verify next req jar hc hl2, catchBlock_verifyCalls]
  have hskip : cookieKey env ∉ objectPrototypeKeys →
      (sessionCookie env req = none ∨ sessionCookie env req = some "") →
      (authenticate env verify next req).verifyCalls = [] := by
    intro hk h
    rcases h with h | h
    · exact hskip0 (Or.inr (Or.inr ⟨h, hk⟩))
    · exact hskip0 (Or.inr (Or.inl h))
  refine ⟨?_, hskip0, ?_⟩
  · intro jar hc hl
    rw [authenticate_of_falsy env verify next req jar hc hl, catchBlock_object_calls,
      catchBlock_verifyCalls]
    exact ⟨rfl, rfl⟩
  · intro hk hv
    cases hs : sessionCookie env req with
    | none => exact absurd (hskip hk (Or.inl hs)) hv
    | some cookie =>
      refine ⟨cookie, rfl, ?_⟩
      intro he
      subst he
      exact hv (hskip hk (Or.inr hs))

/-- Witness of the amended C9 on a request whose session cookie is empty, a
request whose cookie map lacks it, and a request that carries a token. -/
theorem falsy_cookie_skips_verification_witness :
    emptyCookieRequest.cookies = some [("session", "")]
    ∧ [("session", "")].lookup (cookieKey sampleEnv) = some ""
    ∧ cookieKey sampleEnv ∉ objectPrototypeKeys
    ∧ sessionCookie sampleEnv anonymousRequest = none
    ∧ (authenticate sampleEnv acceptAll quietNext goodRequest).verifyCalls ≠ []
    ∧ ((authenticate sampleEnv acceptAll quietNext emptyCookieRequest).calls
          = [⟨emptyCookieRequest,
              some (.object ⟨"Error", "You must be signed in to continue", some 401⟩)⟩]
        ∧ (authenticate sampleEnv acceptAll quietNext emptyCookieRequest).verifyCalls = [])
    ∧ (authenticate sampleEnv acceptAll quietNext anonymousRequest).verifyCalls = []
    ∧ ∃ cookie, sessionCookie sampleEnv goodRequest = some cookie ∧ cookie ≠ "" :=
  ⟨rfl, by decide, by decide, by decide, by decide,
   (falsy_cookie_skips_verification sampleEnv acceptAll quietNext emptyCookieRequest).1
     [("session", "")] rfl (Or.inl (by decide)),
   (falsy_cookie_skips_verification sampleEnv acceptAll quietNext anonymousRequest).2.1
     (Or.inr (Or.inr ⟨by decide, by decide⟩)),
   (falsy_cookie_skips_verification sampleEnv acceptAll quietNext goodRequest).2.2
     (by decide) (by decide)⟩

/-- C10: with a continuation that does not throw, the gate is total: for
every request the returned promise resolves and the continuation is called
exactly once; a request without a cookie map is rejected through it with an
error object of status 401. -/
theorem gate_total (env : Env) (verify : Verifier) (next : Next) (req : Request)
    (h : ∀ r a, next r a = none) :
    (authenticate env verify next req).completion = .resolved
    ∧ (authenticate env verify next req).calls.length = 1
    ∧ (req.cookies = none →
        ∃ e : JsError, (authenticate env verify next req).calls = [⟨req, some (.object e)⟩]
          ∧ e.status = some 401) := by
  obtain ⟨hdone, hone⟩ := authenticate_of_quiet env verify next req h
  refine ⟨hdone, hone, ?_⟩
  intro hc
  rw [authenticate_of_no_jar env verify next req hc, catchBlock_object_calls]
  exact ⟨_, rfl, rfl⟩

/-- Witness of C10 on a request without a cookie map. -/
theorem gate_total_witness :
    (∀ r a, quietNext r a = none)
    ∧ (authenticate sampleEnv sampleVerify quietNext bareRequest).completion = .resolved
    ∧ (authenticate sampleEnv sampleVerify quietNext bareRequest).calls.length = 1
    ∧ (bareRequest.cookies = none →
        ∃ e : JsError, (authenticate sampleEnv sampleVerify quietNext bareRequest).calls
            = [⟨bareRequest, some (.object e)⟩]
          ∧ e.status = some 401) :=
  ⟨fun _ _ => rfl, gate_total sampleEnv sampleVerify quietNext bareRequest (fun _ _ => rfl)⟩

end GetBackJojo
